import Mathlib

/-!
# The metrics agent of `src/main.c`

`main` initialises the metric registry, starts the HTTP exposition thread and
then refreshes eight gauges forever, sleeping `SLEEP_TIME` seconds between two
passes.  The development below embeds `main` statement by statement as a
function on an explicit program state and proves the lifecycle properties of
the collector loop.

Conventions of the embedding:

* a sampled reading (a C `double`) is an `Int`: `main` never does arithmetic on
  a reading, it only moves it from a sampler into a gauge;
* everything outside the process (the outcome of `pthread_create`, the values
  the samplers read from the operating system) is collected in a `World`;
* every call `main` makes is appended to a trace, so that ordering properties
  can be stated on the trace;
* the `while (true)` loop is run with a fuel that counts loop iterations; a
  run that is still inside the loop when the fuel is used up is `running`.
-/

namespace Tp2SO

/-! ## Constants -/

/-- Seconds between two metric updates: `#define SLEEP_TIME 1`. -/
def SLEEP_TIME : Nat := 1

/-- Value of `EXIT_SUCCESS` in `<stdlib.h>`. -/
def EXIT_SUCCESS : Int := 0

/-- Value of `EXIT_FAILURE` in `<stdlib.h>`. -/
def EXIT_FAILURE : Int := 1

/-! ## Samplers, gauges and operations -/

/-- The sampler functions.  The six `get_disk_io_read` … `get_context_switches`
are called by `main` directly; `get_cpu_usage` and `get_memory_usage` are the
samplers behind `update_cpu_gauge` and `update_memory_gauge`. -/
inductive Sampler
  | get_cpu_usage
  | get_memory_usage
  | get_disk_io_read
  | get_disk_io_write
  | get_network_rx
  | get_network_tx
  | get_process_count
  | get_context_switches
  deriving DecidableEq

/-- The gauge handles.  The six `disk_io_read_metric` … `context_switch_metric`
are the globals `main` passes to `prom_gauge_set`; `cpu_usage_metric` and
`memory_usage_metric` are the gauges behind `update_cpu_gauge` and
`update_memory_gauge`. -/
inductive Gauge
  | cpu_usage_metric
  | memory_usage_metric
  | disk_io_read_metric
  | disk_io_write_metric
  | net_rx_metric
  | net_tx_metric
  | process_count_metric
  | context_switch_metric
  deriving DecidableEq

/-- Modelled from the spec: the fixed metric names of §3 and §6 (the gauges are
named inside `init_metrics`, which `main.c` only calls). -/
def Gauge.name : Gauge → String
  | .cpu_usage_metric => "cpu_usage"
  | .memory_usage_metric => "memory_usage"
  | .disk_io_read_metric => "disk_io_read"
  | .disk_io_write_metric => "disk_io_write"
  | .net_rx_metric => "network_rx"
  | .net_tx_metric => "network_tx"
  | .process_count_metric => "process_count"
  | .context_switch_metric => "context_switches"

/-- The eight gauges, in the order of the spec. -/
def Gauge.all : List Gauge :=
  [.cpu_usage_metric, .memory_usage_metric, .disk_io_read_metric, .disk_io_write_metric,
   .net_rx_metric, .net_tx_metric, .process_count_metric, .context_switch_metric]

/-- The eight fixed metric names of the spec (§3, §6). -/
def fixedNames : List String :=
  ["cpu_usage", "memory_usage", "disk_io_read", "disk_io_write",
   "network_rx", "network_tx", "process_count", "context_switches"]

/-- One externally visible operation of the process. -/
inductive Op
  | init_metrics
  | pthread_create
  | fprintf_stderr (msg : String)
  | call (f : Sampler)
  | prom_gauge_set (g : Gauge) (v : Int)
  | sleep (seconds : Nat)
  deriving DecidableEq

/-! ## World and state -/

/-- What the process cannot control: the return value of `pthread_create` and,
for every sampler, the value its `k`-th call returns (`k` counted from 0). -/
structure World where
  pthread_create : Int
  sample : Sampler → Nat → Int

/-- The program state: the registry (one entry per created gauge, with the
value last written), how often each sampler has been called, what has been
written to `stderr`, and the trace of operations so far. -/
structure State where
  registry : List (Gauge × Int)
  calls : Sampler → Nat
  stderr : List String
  trace : List Op

/-- The state in which `main` is entered. -/
def State.entry : State :=
  { registry := [], calls := fun _ => 0, stderr := [], trace := [] }

/-- The value a gauge holds, `none` when the gauge was never created. -/
def State.gauge (s : State) (g : Gauge) : Option Int :=
  s.registry.lookup g

/-- The metric names of the registry, in registry order. -/
def State.names (s : State) : List String :=
  s.registry.map (fun e => e.1.name)

/-- How a run of `main` is observed: it returned a status, or it is still in
the collector loop after the given number of iterations. -/
inductive Outcome
  | returned (status : Int) (s : State)
  | running (s : State)

/-- The state an outcome carries. -/
def Outcome.state : Outcome → State
  | .returned _ s => s
  | .running s => s

/-! ## The statements of `main` -/

/-- Modelled from the spec: `init_metrics` is only called in `main.c`; by §4.1
`initialize()` "creates all eight gauges with fixed names".  A created gauge
holds 0 until it is first set. -/
def init_metrics (s : State) : State :=
  { s with
    registry := s.registry ++ Gauge.all.map (fun g => (g, 0))
    trace := s.trace ++ [Op.init_metrics] }

/-- The call `pthread_create(&tid, NULL, expose_metrics, NULL)`: its return
value is the world's. -/
def pthread_create (w : World) (s : State) : Int × State :=
  (w.pthread_create, { s with trace := s.trace ++ [Op.pthread_create] })

/-- The call `fprintf(stderr, msg)`. -/
def fprintf_stderr (msg : String) (s : State) : State :=
  { s with stderr := s.stderr ++ [msg], trace := s.trace ++ [Op.fprintf_stderr msg] }

/-- A call of the sampler `f`: it returns the world's next reading for `f`. -/
def call (w : World) (f : Sampler) (s : State) : Int × State :=
  (w.sample f (s.calls f),
   { s with
     calls := Function.update s.calls f (s.calls f + 1)
     trace := s.trace ++ [Op.call f] })

/-- Modelled from the spec: `prom_gauge_set(g, v, NULL)` belongs to the metrics
library; by §4.1 `setValue(name, value)` "overwrites the current value for
name" and nothing else. -/
def prom_gauge_set (g : Gauge) (v : Int) (s : State) : State :=
  { s with
    registry := s.registry.map (fun e => if e.1 = g then (e.1, v) else e)
    trace := s.trace ++ [Op.prom_gauge_set g v] }

/-- Modelled from the spec: `update_cpu_gauge` is only called in `main.c`; by
§4.2 and §4.3 the CPU sampler is invoked and "the Collector Loop writes
whatever value is returned, including the failure sentinel, directly into the
Registry". -/
def update_cpu_gauge (w : World) (s : State) : State :=
  let r := call w .get_cpu_usage s
  prom_gauge_set .cpu_usage_metric r.1 r.2

/-- Modelled from the spec: `update_memory_gauge` is only called in `main.c`;
by §4.2 and §4.3 the memory sampler is invoked and its result is written
unchanged into the registry. -/
def update_memory_gauge (w : World) (s : State) : State :=
  let r := call w .get_memory_usage s
  prom_gauge_set .memory_usage_metric r.1 r.2

/-- The call `sleep(seconds)`. -/
def sleep (seconds : Nat) (s : State) : State :=
  { s with trace := s.trace ++ [Op.sleep seconds] }

/-- The body of the `while (true)` loop, lines 37–86 of `main.c`. -/
def loop_body (w : World) (s : State) : State :=
  let s := update_cpu_gauge w s
  let s := update_memory_gauge w s
  let disk_read := call w .get_disk_io_read s
  let s := prom_gauge_set .disk_io_read_metric disk_read.1 disk_read.2
  let disk_write := call w .get_disk_io_write s
  let s := prom_gauge_set .disk_io_write_metric disk_write.1 disk_write.2
  let net_rx := call w .get_network_rx s
  let s := prom_gauge_set .net_rx_metric net_rx.1 net_rx.2
  let net_tx := call w .get_network_tx s
  let s := prom_gauge_set .net_tx_metric net_tx.1 net_tx.2
  let process_count := call w .get_process_count s
  let s := prom_gauge_set .process_count_metric process_count.1 process_count.2
  let context_switches := call w .get_context_switches s
  let s := prom_gauge_set .context_switch_metric context_switches.1 context_switches.2
  sleep SLEEP_TIME s

/-- The loop `while (true) { … }` followed by `return EXIT_SUCCESS`, run for
at most `fuel` iterations. -/
def while_true (w : World) : Nat → State → Outcome
  | 0, s => .running s
  | fuel + 1, s =>
    if true then while_true w fuel (loop_body w s)
    else .returned EXIT_SUCCESS s

/-- The function `main` of `main.c`. -/
def main (w : World) (fuel : Nat) : Outcome :=
  let s := init_metrics State.entry
  let tid := pthread_create w s
  if tid.1 ≠ 0 then
    let s := fprintf_stderr "Error al crear el hilo del servidor HTTP\n" tid.2
    .returned EXIT_FAILURE s
  else
    while_true w fuel tid.2


/-! ## Expected behaviour, in the words of the spec -/

/-- The sampler of each metric (§4.3: CPU, memory, disk-read, disk-write,
net-rx, net-tx, process-count, context-switches). -/
def samplerOf : Gauge → Sampler
  | .cpu_usage_metric => .get_cpu_usage
  | .memory_usage_metric => .get_memory_usage
  | .disk_io_read_metric => .get_disk_io_read
  | .disk_io_write_metric => .get_disk_io_write
  | .net_rx_metric => .get_network_rx
  | .net_tx_metric => .get_network_tx
  | .process_count_metric => .get_process_count
  | .context_switch_metric => .get_context_switches

/-- The sampling operations of one pass as §4.3 lists them, `v f` being the
reading of sampler `f` in that pass: each sampler is invoked, in the fixed
order, and its result is set into the gauge of its metric. -/
def samplingPass (v : Sampler → Int) : List Op :=
  [.call .get_cpu_usage, .prom_gauge_set .cpu_usage_metric (v .get_cpu_usage),
   .call .get_memory_usage, .prom_gauge_set .memory_usage_metric (v .get_memory_usage),
   .call .get_disk_io_read, .prom_gauge_set .disk_io_read_metric (v .get_disk_io_read),
   .call .get_disk_io_write, .prom_gauge_set .disk_io_write_metric (v .get_disk_io_write),
   .call .get_network_rx, .prom_gauge_set .net_rx_metric (v .get_network_rx),
   .call .get_network_tx, .prom_gauge_set .net_tx_metric (v .get_network_tx),
   .call .get_process_count, .prom_gauge_set .process_count_metric (v .get_process_count),
   .call .get_context_switches, .prom_gauge_set .context_switch_metric (v .get_context_switches)]

/-- The gauge update an operation performs, if it is one. -/
def Op.written : Op → Option (Gauge × Int)
  | .prom_gauge_set g v => some (g, v)
  | _ => none

/-- An operation with the value it writes erased: which call it is, on which
sampler or gauge, and the argument of a sleep are kept. -/
def Op.shape : Op → Op
  | .prom_gauge_set g _ => .prom_gauge_set g 0
  | op => op

/-- The exit status of an outcome, `none` while the loop is running. -/
def Outcome.status : Outcome → Option Int
  | .returned status _ => some status
  | .running _ => none

/-! ## Sample worlds -/

/-- A world in which `pthread_create` fails with 11 (`EAGAIN`). -/
def World.threadFails : World := { pthread_create := 11, sample := fun _ _ => 0 }

/-- A world in which every sampler always returns the failure sentinel -1. -/
def World.sentinel : World := { pthread_create := 0, sample := fun _ _ => -1 }

/-- A world in which the `k`-th call of every sampler returns `k`. -/
def World.counting : World := { pthread_create := 0, sample := fun _ k => k }

/-! ## Lemmas on the statements and on the loop -/

/-- The loop never leaves through its condition: with fuel `n` it has run the body
`n` times and is still running. -/
theorem while_true_eq (w : World) (n : Nat) (s : State) :
    while_true w n s = Outcome.running ((loop_body w)^[n] s) := by
  induction n generalizing s with
  | zero => rfl
  | succ k ih => simp [while_true, ih]

/-- With a successful `pthread_create`, `main` is the loop run from the state left by
the two start-up calls. -/
theorem main_success (w : World) (h : w.pthread_create = 0) (n : Nat) :
    main w n = Outcome.running ((loop_body w)^[n] (pthread_create w (init_metrics State.entry)).2) := by
  simp [main, pthread_create, h, while_true_eq]

/-- With a failed `pthread_create`, `main` prints the diagnostic and returns
`EXIT_FAILURE`, whatever the fuel. -/
theorem main_failure (w : World) (h : w.pthread_create ≠ 0) (n : Nat) :
    main w n = Outcome.returned EXIT_FAILURE
      (fprintf_stderr "Error al crear el hilo del servidor HTTP\n"
        (pthread_create w (init_metrics State.entry)).2) := by
  simp [main, pthread_create, h]

/-- The operations one pass appends to the trace. -/
theorem loop_body_trace (w : World) (s : State) :
    (loop_body w s).trace
      = s.trace ++ samplingPass (fun f => w.sample f (s.calls f)) ++ [Op.sleep SLEEP_TIME] := by
  simp [loop_body, update_cpu_gauge, update_memory_gauge, call, prom_gauge_set, sleep,
    samplingPass, Function.update]

/-- One pass calls every sampler exactly once. -/
theorem loop_body_calls (w : World) (s : State) (f : Sampler) :
    (loop_body w s).calls f = s.calls f + 1 := by
  cases f <;>
  simp [loop_body, update_cpu_gauge, update_memory_gauge, call, prom_gauge_set, sleep,
    Function.update]

/-- Lookup in a registry with a first entry, as a conditional on the key. -/
theorem lookup_cons_ite (a k : Gauge) (b : Int) (es : List (Gauge × Int)) :
    ((k, b) :: es).lookup a = if a = k then some b else es.lookup a := by
  rw [List.lookup_cons]
  by_cases h : a = k
  · subst h; simp
  · have hb : (a == k) = false := by simpa using h
    simp [hb, h]

/-- Lookup after every entry was given a value that depends on its key only. -/
theorem lookup_map_snd (F : Gauge → Int) (g : Gauge) (r : List (Gauge × Int)) :
    (r.map (fun e => (e.1, F e.1))).lookup g = (r.lookup g).map (fun _ => F g) := by
  induction r with
  | nil => rfl
  | cons e r ih =>
    obtain ⟨k, x⟩ := e
    rw [List.map_cons, lookup_cons_ite, lookup_cons_ite, ih]
    by_cases h : g = k
    · subst h; simp
    · simp [h]

/-- One pass overwrites the value of every registry entry with the reading of the
sampler of its metric and touches nothing else. -/
theorem loop_body_registry (w : World) (s : State) :
    (loop_body w s).registry
      = s.registry.map (fun e => (e.1, w.sample (samplerOf e.1) (s.calls (samplerOf e.1)))) := by
  simp only [loop_body, update_cpu_gauge, update_memory_gauge, call, prom_gauge_set, sleep,
    List.map_map]
  apply List.map_congr_left
  intro e _
  obtain ⟨k, x⟩ := e
  cases k <;> simp [samplerOf, Function.update]

/-- One pass keeps the metric names. -/
theorem loop_body_names (w : World) (s : State) : (loop_body w s).names = s.names := by
  simp [State.names, loop_body_registry, List.map_map, Function.comp_def]

/-- The value of a gauge after one pass. -/
theorem loop_body_gauge (w : World) (s : State) (g : Gauge) :
    (loop_body w s).gauge g
      = (s.gauge g).map (fun _ => w.sample (samplerOf g) (s.calls (samplerOf g))) := by
  simp only [State.gauge, loop_body_registry]
  exact lookup_map_snd (fun k => w.sample (samplerOf k) (s.calls (samplerOf k))) g s.registry

/-- After `n` passes every sampler has been called `n` more times. -/
theorem iterate_calls (w : World) (n : Nat) (s : State) (f : Sampler) :
    ((loop_body w)^[n] s).calls f = s.calls f + n := by
  induction n generalizing s with
  | zero => rfl
  | succ k ih => rw [Function.iterate_succ_apply, ih, loop_body_calls]; omega

/-- Any number of passes keeps the metric names. -/
theorem iterate_names (w : World) (n : Nat) (s : State) :
    ((loop_body w)^[n] s).names = s.names := by
  induction n generalizing s with
  | zero => rfl
  | succ k ih => rw [Function.iterate_succ_apply, ih, loop_body_names]

/-- A gauge that exists still exists after any number of passes. -/
theorem iterate_gauge_isSome (w : World) (n : Nat) (s : State) (g : Gauge)
    (h : (s.gauge g).isSome) : (((loop_body w)^[n] s).gauge g).isSome := by
  induction n generalizing s with
  | zero => exact h
  | succ k ih =>
    rw [Function.iterate_succ_apply]
    apply ih
    rw [loop_body_gauge]
    simpa using h


/-- The trace when the loop is entered. -/
theorem loop_entry_trace (w : World) :
    (pthread_create w (init_metrics State.entry)).2.trace
      = [Op.init_metrics, Op.pthread_create] := rfl

/-- No sampler has been called when the loop is entered. -/
theorem loop_entry_calls (w : World) (f : Sampler) :
    (pthread_create w (init_metrics State.entry)).2.calls f = 0 := rfl

/-- The metric names when the loop is entered. -/
theorem loop_entry_names (w : World) :
    (pthread_create w (init_metrics State.entry)).2.names = fixedNames := rfl

/-- Every gauge exists, with value 0, when the loop is entered. -/
theorem loop_entry_gauge (w : World) (g : Gauge) :
    (pthread_create w (init_metrics State.entry)).2.gauge g = some 0 := by
  cases g <;> rfl

/-- The trace after `n` passes, started before any sampler call. -/
theorem iterate_trace (w : World) (n : Nat) (s : State) (h : ∀ f, s.calls f = 0) :
    ((loop_body w)^[n] s).trace
      = s.trace ++ (List.range n).flatMap
          (fun k => samplingPass (fun f => w.sample f k) ++ [Op.sleep SLEEP_TIME]) := by
  induction n with
  | zero => simp
  | succ k ih =>
    rw [Function.iterate_succ_apply', loop_body_trace, ih, List.range_succ,
      List.flatMap_append]
    simp [iterate_calls, h]

/-- One pass keeps the gauges of the registry, in their order. -/
theorem loop_body_keys (w : World) (s : State) :
    (loop_body w s).registry.map Prod.fst = s.registry.map Prod.fst := by
  rw [loop_body_registry, List.map_map]
  rfl

/-- Any number of passes keeps the gauges of the registry, in their order. -/
theorem iterate_keys (w : World) (n : Nat) (s : State) :
    ((loop_body w)^[n] s).registry.map Prod.fst = s.registry.map Prod.fst := by
  induction n generalizing s with
  | zero => rfl
  | succ k ih => rw [Function.iterate_succ_apply, ih, loop_body_keys]

/-- The gauges of the registry when the loop is entered. -/
theorem loop_entry_keys (w : World) :
    (pthread_create w (init_metrics State.entry)).2.registry.map Prod.fst = Gauge.all := rfl

/-- The state of `main` after `n` passes. -/
theorem main_success_state (w : World) (h : w.pthread_create = 0) (n : Nat) :
    (main w n).state = (loop_body w)^[n] (pthread_create w (init_metrics State.entry)).2 := by
  rw [main_success w h]; rfl

/-- The trace of `main` after `n` passes. -/
theorem main_success_trace (w : World) (h : w.pthread_create = 0) (n : Nat) :
    (main w n).state.trace
      = [Op.init_metrics, Op.pthread_create] ++ (List.range n).flatMap
          (fun k => samplingPass (fun f => w.sample f k) ++ [Op.sleep SLEEP_TIME]) := by
  rw [main_success_state w h, iterate_trace w n _ (loop_entry_calls w), loop_entry_trace]

/-- The trace of `main` when `pthread_create` fails. -/
theorem main_failure_trace (w : World) (h : w.pthread_create ≠ 0) (n : Nat) :
    (main w n).state.trace
      = [Op.init_metrics, Op.pthread_create,
         Op.fprintf_stderr "Error al crear el hilo del servidor HTTP\n"] := by
  rw [main_failure w h]; rfl

/-- The shape of a sampling pass does not depend on the readings. -/
theorem shape_samplingPass (v1 v2 : Sampler → Int) :
    (samplingPass v1).map Op.shape = (samplingPass v2).map Op.shape := by
  simp [samplingPass, Op.shape]

/-- The shape of `n` passes does not depend on the readings. -/
theorem shape_cycles (w1 w2 : World) (n : Nat) :
    ((List.range n).flatMap
        (fun k => samplingPass (fun f => w1.sample f k) ++ [Op.sleep SLEEP_TIME])).map Op.shape
      = ((List.range n).flatMap
        (fun k => samplingPass (fun f => w2.sample f k) ++ [Op.sleep SLEEP_TIME])).map Op.shape := by
  induction n with
  | zero => rfl
  | succ k ih =>
    simp only [List.range_succ, List.flatMap_append, List.map_append, ih]
    simp [shape_samplingPass (fun f => w1.sample f k) (fun f => w2.sample f k)]

/-- The passes of the loop never call `init_metrics`. -/
theorem init_not_mem_cycles (w : World) (n : Nat) :
    Op.init_metrics ∉ (List.range n).flatMap
        (fun k => samplingPass (fun f => w.sample f k) ++ [Op.sleep SLEEP_TIME]) := by
  simp [List.mem_flatMap, samplingPass]

/-! ## The claims -/

/-- C1: if the exposition thread was created, then after `n + 1` complete
passes of the collector loop every gauge holds exactly the value its own
sampler returned in the last complete pass (the sampler has then been called
`n + 1` times and the gauge holds the result of the last call), whatever the
samplers return, failure sentinels included. -/
theorem gauges_hold_latest_samples (w : World) (h : w.pthread_create = 0) (n : Nat)
    (g : Gauge) :
    ∃ s, main w (n + 1) = Outcome.running s ∧ s.calls (samplerOf g) = n + 1 ∧
      s.gauge g = some (w.sample (samplerOf g) n) := by
  refine ⟨_, main_success w h (n + 1), ?_, ?_⟩
  · rw [iterate_calls, loop_entry_calls]; omega
  · rw [Function.iterate_succ_apply', loop_body_gauge, iterate_calls, loop_entry_calls]
    have hs := iterate_gauge_isSome w n (pthread_create w (init_metrics State.entry)).2 g
      (by rw [loop_entry_gauge]; rfl)
    obtain ⟨x, hx⟩ := Option.isSome_iff_exists.mp hs
    simp [hx]

/-- Witness of C1: with every sampler returning the sentinel -1, the CPU gauge
holds -1 after the first pass. -/
theorem gauges_hold_latest_samples_witness :
    World.sentinel.pthread_create = 0 ∧
    ∃ s, main World.sentinel (0 + 1) = Outcome.running s ∧
      s.calls (samplerOf Gauge.cpu_usage_metric) = 0 + 1 ∧
      s.gauge Gauge.cpu_usage_metric = some (-1) :=
  ⟨rfl, gauges_hold_latest_samples World.sentinel rfl 0 Gauge.cpu_usage_metric⟩

/-- C2: if `pthread_create` returns non-zero, `main` returns `EXIT_FAILURE`,
which is non-zero, for every fuel; the run consists of `init_metrics`,
`pthread_create` and the diagnostic only: no sampler is called, no gauge is
set and `sleep` is not called. -/
theorem thread_failure_skips_loop (w : World) (h : w.pthread_create ≠ 0) (fuel : Nat) :
    ∃ s, main w fuel = Outcome.returned EXIT_FAILURE s ∧ EXIT_FAILURE ≠ 0 ∧
      s.trace = [Op.init_metrics, Op.pthread_create,
                 Op.fprintf_stderr "Error al crear el hilo del servidor HTTP\n"] ∧
      (∀ f, Op.call f ∉ s.trace ∧ s.calls f = 0) ∧
      (∀ g v, Op.prom_gauge_set g v ∉ s.trace) ∧
      (∀ t, Op.sleep t ∉ s.trace) := by
  refine ⟨_, main_failure w h fuel, by decide, rfl, ?_, ?_, ?_⟩
  · intro f
    exact ⟨by simp [fprintf_stderr, pthread_create, init_metrics, State.entry], rfl⟩
  · intro g v
    simp [fprintf_stderr, pthread_create, init_metrics, State.entry]
  · intro t
    simp [fprintf_stderr, pthread_create, init_metrics, State.entry]

/-- Witness of C2: a world in which `pthread_create` returns 11. -/
theorem thread_failure_skips_loop_witness :
    World.threadFails.pthread_create ≠ 0 ∧
    ∃ s, main World.threadFails 5 = Outcome.returned EXIT_FAILURE s ∧ EXIT_FAILURE ≠ 0 ∧
      s.trace = [Op.init_metrics, Op.pthread_create,
                 Op.fprintf_stderr "Error al crear el hilo del servidor HTTP\n"] ∧
      (∀ f, Op.call f ∉ s.trace ∧ s.calls f = 0) ∧
      (∀ g v, Op.prom_gauge_set g v ∉ s.trace) ∧
      (∀ t, Op.sleep t ∉ s.trace) :=
  ⟨by decide, thread_failure_skips_loop World.threadFails (by decide) 5⟩

/-- C4: in every run of `main`, whatever the fuel and whatever the samplers
return, the metric names of the registry are exactly the fixed names, which
are eight and pairwise distinct; and a pass of the collector loop leaves the
names of any registry unchanged. -/
theorem registry_names_fixed (w : World) (fuel : Nat) :
    (main w fuel).state.names = fixedNames ∧
    fixedNames.length = 8 ∧ fixedNames.Nodup ∧
    ∀ s : State, (loop_body w s).names = s.names := by
  refine ⟨?_, rfl, by decide, loop_body_names w⟩
  by_cases h : w.pthread_create = 0
  · rw [main_success_state w h, iterate_names, loop_entry_names]
  · rw [main_failure w h]; rfl

/-- C5: whenever `main` returns, `pthread_create` had failed, the status is
`EXIT_FAILURE` = 1, exactly one message, the diagnostic, has been written to
`stderr`, and no sampler has been called; so with a successful
`pthread_create` no sampled value makes `main` return. -/
theorem main_returns_only_on_thread_failure (w : World) (fuel : Nat) (status : Int)
    (s : State) (h : main w fuel = Outcome.returned status s) :
    w.pthread_create ≠ 0 ∧ status = EXIT_FAILURE ∧ EXIT_FAILURE = 1 ∧
      s.stderr = ["Error al crear el hilo del servidor HTTP\n"] ∧
      ∀ f, s.calls f = 0 := by
  by_cases hw : w.pthread_create = 0
  · rw [main_success w hw] at h; cases h
  · rw [main_failure w hw] at h
    cases h
    exact ⟨hw, rfl, rfl, rfl, fun _ => rfl⟩

/-- Witness of C5: the run in which `pthread_create` returns 11. -/
theorem main_returns_only_on_thread_failure_witness :
    main World.threadFails 2 = Outcome.returned 1 (main World.threadFails 2).state ∧
    (World.threadFails.pthread_create ≠ 0 ∧ (1 : Int) = EXIT_FAILURE ∧ EXIT_FAILURE = 1 ∧
      (main World.threadFails 2).state.stderr
        = ["Error al crear el hilo del servidor HTTP\n"] ∧
      ∀ f, (main World.threadFails 2).state.calls f = 0) :=
  ⟨rfl, main_returns_only_on_thread_failure World.threadFails 2 1 _ rfl⟩

/-- C6: if the exposition thread was created, then for every `n` the run is
still in the collector loop after `n` passes and goes on with pass `n + 1`;
`main` never returns, with status 0 or any other. -/
theorem main_never_returns (w : World) (h : w.pthread_create = 0) (n : Nat) :
    (∃ s, main w n = Outcome.running s ∧ main w (n + 1) = Outcome.running (loop_body w s)) ∧
    ∀ status s, main w n ≠ Outcome.returned status s := by
  refine ⟨⟨_, main_success w h n, ?_⟩, ?_⟩
  · rw [main_success w h, Function.iterate_succ_apply']
  · intro status s hs
    rw [main_success w h] at hs
    cases hs

/-- Witness of C6: a world in which `pthread_create` returns 0. -/
theorem main_never_returns_witness :
    World.counting.pthread_create = 0 ∧
    ((∃ s, main World.counting 3 = Outcome.running s ∧
        main World.counting (3 + 1) = Outcome.running (loop_body World.counting s)) ∧
     ∀ status s, main World.counting 3 ≠ Outcome.returned status s) :=
  ⟨rfl, main_never_returns World.counting rfl 3⟩

/-- C7: in every run of `main` the trace starts with `init_metrics`, followed
by `pthread_create`, and `init_metrics` occurs exactly once, so every sampler
call and every gauge update comes later.  The run of `main` is the call of
`pthread_create`, and what follows it, in a state whose trace is exactly
`init_metrics` and whose registry holds the eight fixed names with all eight
gauges present: the gauges exist when the thread is created.  They also exist,
under the same names, in every state `main` is observed in, and right after the
thread creation, before any pass, the registry holds the eight gauges, none of
them written yet. -/
theorem init_metrics_once_and_first (w : World) (fuel : Nat) :
    (∃ rest, (main w fuel).state.trace = Op.init_metrics :: Op.pthread_create :: rest ∧
      Op.init_metrics ∉ rest) ∧
    (main w fuel).state.trace.count Op.init_metrics = 1 ∧
    (∃ s0 : State, s0.trace = [Op.init_metrics] ∧ s0.names = fixedNames ∧
      (∀ g, (s0.gauge g).isSome) ∧
      main w fuel =
        if (pthread_create w s0).1 ≠ 0 then
          Outcome.returned EXIT_FAILURE
            (fprintf_stderr "Error al crear el hilo del servidor HTTP\n" (pthread_create w s0).2)
        else while_true w fuel (pthread_create w s0).2) ∧
    (∀ g, ((main w fuel).state.gauge g).isSome) ∧
    (main w fuel).state.names = fixedNames ∧
    (main w 0).state.registry = Gauge.all.map (fun g => (g, 0)) ∧
    (∀ f, Op.call f ∉ (main w 0).state.trace) ∧
    (∀ g v, Op.prom_gauge_set g v ∉ (main w 0).state.trace) := by
  refine ⟨?_, ?_, ⟨init_metrics State.entry, rfl, rfl, fun g => by cases g <;> rfl, rfl⟩,
    ?_, ?_, ?_, ?_, ?_⟩
  · by_cases h : w.pthread_create = 0
    · exact ⟨_, main_success_trace w h fuel, init_not_mem_cycles w fuel⟩
    · exact ⟨_, main_failure_trace w h fuel, by simp⟩
  · by_cases h : w.pthread_create = 0
    · rw [main_success_trace w h, List.count_append,
        List.count_eq_zero_of_not_mem (init_not_mem_cycles w fuel)]
      rfl
    · rw [main_failure_trace w h]; decide
  · intro g
    by_cases h : w.pthread_create = 0
    · rw [main_success_state w h]
      exact iterate_gauge_isSome w fuel _ g (by rw [loop_entry_gauge]; rfl)
    · rw [main_failure w h]; cases g <;> rfl
  · by_cases h : w.pthread_create = 0
    · rw [main_success_state w h, iterate_names, loop_entry_names]
    · rw [main_failure w h]; rfl
  · by_cases h : w.pthread_create = 0
    · rw [main_success_state w h]; rfl
    · rw [main_failure w h]; rfl
  · intro f
    by_cases h : w.pthread_create = 0
    · rw [main_success_trace w h]; simp
    · rw [main_failure_trace w h]; simp
  · intro g v
    by_cases h : w.pthread_create = 0
    · rw [main_success_trace w h]; simp
    · rw [main_failure_trace w h]; simp

/-- C8: if the exposition thread was created, pass `n + 1` of the collector
loop performs, for every `n`, the same sequence of operations: the eight
samplers are called once each in the order CPU, memory, disk read, disk write,
network rx, network tx, process count, context switches, and the result of
each is set into the gauge of the same metric.  This holds of the trace and of
the state: after the pass the registry holds, for each of the eight gauges,
the reading its own sampler returned in this pass, and the call counter of
every sampler has advanced by exactly one. -/
theorem cycle_operations (w : World) (h : w.pthread_create = 0) (n : Nat) :
    (main w (n + 1)).state.trace = (main w n).state.trace ++
      [Op.call .get_cpu_usage,
       Op.prom_gauge_set .cpu_usage_metric (w.sample .get_cpu_usage n),
       Op.call .get_memory_usage,
       Op.prom_gauge_set .memory_usage_metric (w.sample .get_memory_usage n),
       Op.call .get_disk_io_read,
       Op.prom_gauge_set .disk_io_read_metric (w.sample .get_disk_io_read n),
       Op.call .get_disk_io_write,
       Op.prom_gauge_set .disk_io_write_metric (w.sample .get_disk_io_write n),
       Op.call .get_network_rx,
       Op.prom_gauge_set .net_rx_metric (w.sample .get_network_rx n),
       Op.call .get_network_tx,
       Op.prom_gauge_set .net_tx_metric (w.sample .get_network_tx n),
       Op.call .get_process_count,
       Op.prom_gauge_set .process_count_metric (w.sample .get_process_count n),
       Op.call .get_context_switches,
       Op.prom_gauge_set .context_switch_metric (w.sample .get_context_switches n),
       Op.sleep SLEEP_TIME] ∧
    (main w (n + 1)).state.registry =
      [(Gauge.cpu_usage_metric, w.sample .get_cpu_usage n),
       (Gauge.memory_usage_metric, w.sample .get_memory_usage n),
       (Gauge.disk_io_read_metric, w.sample .get_disk_io_read n),
       (Gauge.disk_io_write_metric, w.sample .get_disk_io_write n),
       (Gauge.net_rx_metric, w.sample .get_network_rx n),
       (Gauge.net_tx_metric, w.sample .get_network_tx n),
       (Gauge.process_count_metric, w.sample .get_process_count n),
       (Gauge.context_switch_metric, w.sample .get_context_switches n)] ∧
    (∀ g, (main w (n + 1)).state.gauge g = some (w.sample (samplerOf g) n)) ∧
    (∀ f, (main w n).state.calls f = n ∧ (main w (n + 1)).state.calls f = n + 1) := by
  have hreg : (main w (n + 1)).state.registry
      = Gauge.all.map (fun g => (g, w.sample (samplerOf g) n)) := by
    rw [main_success_state w h, Function.iterate_succ_apply', loop_body_registry]
    have hk := iterate_keys w n (pthread_create w (init_metrics State.entry)).2
    rw [loop_entry_keys] at hk
    rw [← hk, List.map_map]
    apply List.map_congr_left
    intro e _
    simp [iterate_calls, loop_entry_calls]
  refine ⟨?_, ?_, ?_, ?_⟩
  · rw [main_success_trace w h, main_success_trace w h, List.range_succ, List.flatMap_append]
    simp [samplingPass]
  · rw [hreg]; rfl
  · intro g
    rw [State.gauge, hreg]
    cases g <;> rfl
  · intro f
    rw [main_success_state w h, main_success_state w h, iterate_calls, iterate_calls,
      loop_entry_calls]
    omega

/-- Witness of C8: the first pass in a world whose samplers return -1. -/
theorem cycle_operations_witness :
    World.sentinel.pthread_create = 0 ∧
    ((main World.sentinel (0 + 1)).state.trace = (main World.sentinel 0).state.trace ++
      [Op.call .get_cpu_usage, Op.prom_gauge_set .cpu_usage_metric (-1),
       Op.call .get_memory_usage, Op.prom_gauge_set .memory_usage_metric (-1),
       Op.call .get_disk_io_read, Op.prom_gauge_set .disk_io_read_metric (-1),
       Op.call .get_disk_io_write, Op.prom_gauge_set .disk_io_write_metric (-1),
       Op.call .get_network_rx, Op.prom_gauge_set .net_rx_metric (-1),
       Op.call .get_network_tx, Op.prom_gauge_set .net_tx_metric (-1),
       Op.call .get_process_count, Op.prom_gauge_set .process_count_metric (-1),
       Op.call .get_context_switches, Op.prom_gauge_set .context_switch_metric (-1),
       Op.sleep SLEEP_TIME] ∧
    (main World.sentinel (0 + 1)).state.registry =
      [(Gauge.cpu_usage_metric, -1), (Gauge.memory_usage_metric, -1),
       (Gauge.disk_io_read_metric, -1), (Gauge.disk_io_write_metric, -1),
       (Gauge.net_rx_metric, -1), (Gauge.net_tx_metric, -1),
       (Gauge.process_count_metric, -1), (Gauge.context_switch_metric, -1)] ∧
    (∀ g, (main World.sentinel (0 + 1)).state.gauge g
        = some (World.sentinel.sample (samplerOf g) 0)) ∧
    (∀ f, (main World.sentinel 0).state.calls f = 0 ∧
        (main World.sentinel (0 + 1)).state.calls f = 0 + 1)) :=
  ⟨rfl, cycle_operations World.sentinel rfl 0⟩

/-- C9: if the exposition thread was created, the trace after `n` passes is
`init_metrics`, `pthread_create` and then, for each pass, the sixteen sampling
operations followed by one `sleep(SLEEP_TIME)` with `SLEEP_TIME` = 1; the
sampling operations of a pass contain no `sleep` and contain the update of
each of the eight gauges, so two consecutive sleeps enclose exactly one
complete sampling pass. -/
theorem one_sleep_per_cycle (w : World) (h : w.pthread_create = 0) (n : Nat) :
    (main w n).state.trace
      = [Op.init_metrics, Op.pthread_create] ++ (List.range n).flatMap
          (fun k => samplingPass (fun f => w.sample f k) ++ [Op.sleep SLEEP_TIME]) ∧
    SLEEP_TIME = 1 ∧
    (∀ v t, Op.sleep t ∉ samplingPass v) ∧
    (∀ v, (samplingPass v).filterMap Op.written = Gauge.all.map (fun g => (g, v (samplerOf g)))) ∧
    (main w n).state.trace.count (Op.sleep SLEEP_TIME) = n := by
  refine ⟨main_success_trace w h n, rfl, ?_, fun _ => rfl, ?_⟩
  · intro v t; simp [samplingPass]
  · rw [main_success_trace w h]
    induction n with
    | zero => rfl
    | succ k ih =>
      rw [List.range_succ, List.flatMap_append, ← List.append_assoc, List.count_append, ih]
      simp [samplingPass, List.count_cons]

/-- Witness of C9: two passes in a world whose samplers count their calls. -/
theorem one_sleep_per_cycle_witness :
    World.counting.pthread_create = 0 ∧
    ((main World.counting 2).state.trace
      = [Op.init_metrics, Op.pthread_create] ++ (List.range 2).flatMap
          (fun k => samplingPass (fun f => World.counting.sample f k) ++ [Op.sleep SLEEP_TIME]) ∧
    SLEEP_TIME = 1 ∧
    (∀ v t, Op.sleep t ∉ samplingPass v) ∧
    (∀ v, (samplingPass v).filterMap Op.written = Gauge.all.map (fun g => (g, v (samplerOf g)))) ∧
    (main World.counting 2).state.trace.count (Op.sleep SLEEP_TIME) = 2) :=
  ⟨rfl, one_sleep_per_cycle World.counting rfl 2⟩

/-- C10: two runs that differ only in what the samplers return perform, for
every fuel, the same sequence of operations up to the values written to the
gauges (same samplers called, same gauges set, same sleeps with the same
argument), and end in the same way: both return with the same status or both
are still in the loop. -/
theorem control_flow_ignores_samples (w1 w2 : World)
    (h : w1.pthread_create = w2.pthread_create) (n : Nat) :
    (main w1 n).state.trace.map Op.shape = (main w2 n).state.trace.map Op.shape ∧
    (main w1 n).status = (main w2 n).status := by
  by_cases h1 : w1.pthread_create = 0
  · have h2 : w2.pthread_create = 0 := h ▸ h1
    refine ⟨?_, ?_⟩
    · rw [main_success_trace w1 h1, main_success_trace w2 h2, List.map_append, List.map_append,
        shape_cycles w1 w2 n]
    · rw [main_success w1 h1, main_success w2 h2]; rfl
  · have h2 : w2.pthread_create ≠ 0 := h ▸ h1
    refine ⟨?_, ?_⟩
    · rw [main_failure_trace w1 h1, main_failure_trace w2 h2]
    · rw [main_failure w1 h1, main_failure w2 h2]; rfl

/-- Witness of C10: sentinel readings against counting readings. -/
theorem control_flow_ignores_samples_witness :
    World.sentinel.pthread_create = World.counting.pthread_create ∧
    ((main World.sentinel 3).state.trace.map Op.shape
        = (main World.counting 3).state.trace.map Op.shape ∧
     (main World.sentinel 3).status = (main World.counting 3).status) :=
  ⟨rfl, control_flow_ignores_samples World.sentinel World.counting rfl 3⟩

end Tp2SO
